import Mathlib

/-!
Shallow embedding of the persistent data schema declared in
`medical_control/pharmacy/models.py`.

Each Django model becomes a Lean row structure; the database is a record of
row lists, one per table.  The declarative constraints of the schema are
embedded as executable operations with the semantics the storage engine
gives them:

* `unique=True` on `Product.product_code` and the
  `unique_together = ('warehouse', 'product', 'batch')` of `Inventory`
  become uniqueness guards on the create operations.  SQL unique
  constraints treat NULL as distinct from every value, so the guard on the
  inventory triple only fires when both batch references are non-null.
* `PositiveIntegerField` becomes an `Int` field guarded by a non-negativity
  check on create and update.
* `choices=...` on the status fields becomes membership validation against
  the declared `TextChoices` value lists.
* `on_delete=models.CASCADE` / `models.SET_NULL` become the delete
  operations `deleteProduct` and `deleteBatch`; SET_NULL updates go through
  a plain field rewrite (the Django delete collector issues a SQL UPDATE,
  which does not refresh `auto_now` timestamps).
* `TimeStampedModel`'s `auto_now_add` / `auto_now` pair becomes the
  `Timestamps` value object: set to `(now, now)` at row construction,
  `touch`ed (updated only) by update operations.

`Reachable` closes the operations over the empty database, so invariant
claims are stated over every reachable state.
-/

/-- Timestamps of `TimeStampedModel`: `created_at` has `auto_now_add=True`,
`updated_at` has `auto_now=True`.  Time is an abstract tick (`Nat`). -/
structure Timestamps where
  created_at : Nat
  updated_at : Nat
deriving Repr, DecidableEq

/-- Row construction: both timestamps are set to the creation instant. -/
def Timestamps.create (now : Nat) : Timestamps := ⟨now, now⟩

/-- Row update through `save()`: `auto_now` refreshes `updated_at` and
leaves `created_at` alone. -/
def Timestamps.touch (ts : Timestamps) (now : Nat) : Timestamps :=
  ⟨ts.created_at, now⟩

/-- `OrderStatus(models.TextChoices)`: value/label pairs. -/
def OrderStatus.choices : List (String × String) :=
  [("draft", "Черновик"), ("sent", "Отправлен"),
   ("received", "Получен"), ("cancelled", "Отменён")]

def OrderStatus.values : List String := OrderStatus.choices.map Prod.fst

def OrderStatus.DRAFT : String := "draft"

/-- Choice validation for `PurchaseOrder.status`. -/
def OrderStatus.isValid (s : String) : Bool := OrderStatus.values.contains s

/-- `ReceiptStatus(models.TextChoices)`: value/label pairs. -/
def ReceiptStatus.choices : List (String × String) :=
  [("pending", "Ожидается"), ("partial", "Частично принято"),
   ("completed", "Завершено"), ("rejected", "Отклонено")]

def ReceiptStatus.values : List String := ReceiptStatus.choices.map Prod.fst

def ReceiptStatus.PENDING : String := "pending"

/-- Choice validation for `GoodsReceipt.status`. -/
def ReceiptStatus.isValid (s : String) : Bool := ReceiptStatus.values.contains s

/-- `SaleStatus(models.TextChoices)`: value/label pairs. -/
def SaleStatus.choices : List (String × String) :=
  [("open", "Открыт"), ("completed", "Оплачен"), ("returned", "Возврат")]

def SaleStatus.values : List String := SaleStatus.choices.map Prod.fst

def SaleStatus.OPEN : String := "open"

/-- Choice validation for `Sale.status`. -/
def SaleStatus.isValid (s : String) : Bool := SaleStatus.values.contains s

/-- `Product` row.  `product_code` is `unique=True`; the stock thresholds
are `PositiveIntegerField`s, embedded as guarded `Int`s. -/
structure ProductRow where
  id : Nat
  name : String
  product_code : String
  form : String
  composition : String
  manufacturer : String
  is_restricted : Bool
  min_stock_level : Int
  max_stock_level : Int
  ts : Timestamps
deriving Repr, DecidableEq

/-- `Batch` row: `product` is a CASCADE foreign key to `Product`. -/
structure BatchRow where
  id : Nat
  product : Nat
  batch_number : String
  expiration_date : Option Nat
  ts : Timestamps
deriving Repr, DecidableEq

/-- `Warehouse` row. -/
structure WarehouseRow where
  id : Nat
  name : String
  location : String
  warehouse_type : String
  ts : Timestamps
deriving Repr, DecidableEq

/-- `Inventory` row: CASCADE keys to `Warehouse` and `Product`, a nullable
SET_NULL key to `Batch`, a `PositiveIntegerField` quantity and two decimal
prices (embedded as `Int`s; no arithmetic is performed on them). -/
structure InventoryRow where
  id : Nat
  warehouse : Nat
  product : Nat
  batch : Option Nat
  quantity : Int
  cost_price : Int
  retail_price : Int
  ts : Timestamps
deriving Repr, DecidableEq

/-- `Supplier` row. -/
structure SupplierRow where
  id : Nat
  name : String
  contact_info : String
  address : String
  inn : String
  ogrn : String
  ts : Timestamps
deriving Repr, DecidableEq

/-- `PurchaseOrder` row: CASCADE keys to `Supplier` and `Warehouse`,
`order_date` is `auto_now_add`, `status` has `choices=OrderStatus.choices`
and `default=OrderStatus.DRAFT`. -/
structure PurchaseOrderRow where
  id : Nat
  supplier : Nat
  warehouse : Nat
  order_date : Nat
  status : String
  total_cost : Int
  ts : Timestamps
deriving Repr, DecidableEq

/-- `PurchaseOrderDetail` row: CASCADE keys to its header and to `Product`,
`PositiveIntegerField` quantity. -/
structure PurchaseOrderDetailRow where
  id : Nat
  purchase_order : Nat
  product : Nat
  quantity : Int
  price : Int
  discount : Int
  ts : Timestamps
deriving Repr, DecidableEq

/-- `GoodsReceipt` row: nullable SET_NULL key to `PurchaseOrder`, CASCADE
key to `Warehouse`, `receipt_date` is `auto_now_add`, `status` has
`choices=ReceiptStatus.choices` and `default=ReceiptStatus.PENDING`. -/
structure GoodsReceiptRow where
  id : Nat
  purchase_order : Option Nat
  warehouse : Nat
  receipt_date : Nat
  status : String
  ts : Timestamps
deriving Repr, DecidableEq

/-- `GoodsReceiptDetail` row: CASCADE keys to its header and to `Product`,
nullable SET_NULL key to `Batch`, `PositiveIntegerField` quantity. -/
structure GoodsReceiptDetailRow where
  id : Nat
  goods_receipt : Nat
  product : Nat
  batch : Option Nat
  quantity : Int
  cost_price : Int
  expiration_date : Option Nat
  ts : Timestamps
deriving Repr, DecidableEq

/-- `Customer` row. -/
structure CustomerRow where
  id : Nat
  name : String
  surname : String
  phone : String
  email : String
  discount_card_number : String
  ts : Timestamps
deriving Repr, DecidableEq

/-- `Sale` row: CASCADE key to `Warehouse`, nullable SET_NULL keys to
`User` (cashier) and `Customer`, `sale_date` is `auto_now_add`, `status`
has `choices=SaleStatus.choices` and `default=SaleStatus.OPEN`,
`payment_type` has `default='cash'`. -/
structure SaleRow where
  id : Nat
  warehouse : Nat
  cashier : Option Nat
  customer : Option Nat
  sale_date : Nat
  status : String
  total_amount : Int
  payment_type : String
  ts : Timestamps
deriving Repr, DecidableEq

/-- `SaleDetail` row: CASCADE keys to its header and to `Product`,
nullable SET_NULL key to `Batch`, `PositiveIntegerField` quantity. -/
structure SaleDetailRow where
  id : Nat
  sale : Nat
  product : Nat
  batch : Option Nat
  quantity : Int
  unit_price : Int
  discount : Int
  ts : Timestamps
deriving Repr, DecidableEq

/-- `WriteOff` row: CASCADE keys to `Warehouse` and `Product`, nullable
SET_NULL key to `Batch`, `PositiveIntegerField` quantity. -/
structure WriteOffRow where
  id : Nat
  warehouse : Nat
  product : Nat
  batch : Option Nat
  quantity : Int
  reason : String
  ts : Timestamps
deriving Repr, DecidableEq

/-- The database state: one row list per table of the schema.  `users`
stands for `django.contrib.auth.models.User`, the external table the
`Sale.cashier` key points into. -/
structure DB where
  users : List Nat
  products : List ProductRow
  batches : List BatchRow
  warehouses : List WarehouseRow
  inventories : List InventoryRow
  suppliers : List SupplierRow
  purchaseOrders : List PurchaseOrderRow
  purchaseOrderDetails : List PurchaseOrderDetailRow
  goodsReceipts : List GoodsReceiptRow
  goodsReceiptDetails : List GoodsReceiptDetailRow
  customers : List CustomerRow
  sales : List SaleRow
  saleDetails : List SaleDetailRow
  writeOffs : List WriteOffRow
deriving Repr, DecidableEq

def DB.empty : DB := ⟨[], [], [], [], [], [], [], [], [], [], [], [], [], []⟩

/-- Constraint violations the storage engine can raise on a write. -/
inductive DBError where
  | uniqueViolation
  | checkViolation
  | fkViolation
  | invalidChoice
deriving Repr, DecidableEq

deriving instance DecidableEq for Except

def DB.userExists (db : DB) (u : Nat) : Bool := db.users.contains u

def DB.productExists (db : DB) (p : Nat) : Bool :=
  db.products.any (fun r => r.id = p)

def DB.batchExists (db : DB) (b : Nat) : Bool :=
  db.batches.any (fun r => r.id = b)

def DB.warehouseExists (db : DB) (w : Nat) : Bool :=
  db.warehouses.any (fun r => r.id = w)

def DB.supplierExists (db : DB) (s : Nat) : Bool :=
  db.suppliers.any (fun r => r.id = s)

def DB.purchaseOrderExists (db : DB) (po : Nat) : Bool :=
  db.purchaseOrders.any (fun r => r.id = po)

def DB.goodsReceiptExists (db : DB) (gr : Nat) : Bool :=
  db.goodsReceipts.any (fun r => r.id = gr)

def DB.customerExists (db : DB) (c : Nat) : Bool :=
  db.customers.any (fun r => r.id = c)

def DB.saleExists (db : DB) (s : Nat) : Bool :=
  db.sales.any (fun r => r.id = s)

/-- A nullable foreign key is in order when it is NULL or its target row
exists. -/
def optRefOk (ex : Nat → Bool) (o : Option Nat) : Bool :=
  match o with
  | none => true
  | some x => ex x

/-- User-settable fields of a `Product` before save. -/
structure ProductInput where
  name : String
  product_code : String
  form : String
  composition : String
  manufacturer : String
  is_restricted : Bool
  min_stock_level : Int
  max_stock_level : Int
deriving Repr, DecidableEq

def ProductRow.create (id now : Nat) (inp : ProductInput) : ProductRow :=
  ⟨id, inp.name, inp.product_code, inp.form, inp.composition,
   inp.manufacturer, inp.is_restricted, inp.min_stock_level,
   inp.max_stock_level, Timestamps.create now⟩

/-- Insert a `Product`: the unique constraint on `product_code` and the
non-negativity checks of the two `PositiveIntegerField` thresholds guard
the write. -/
def createProduct (db : DB) (id now : Nat) (inp : ProductInput) :
    Except DBError DB :=
  if db.products.any (fun r => r.product_code = inp.product_code) then
    .error .uniqueViolation
  else if inp.min_stock_level < 0 || inp.max_stock_level < 0 then
    .error .checkViolation
  else
    .ok { db with products := db.products ++ [ProductRow.create id now inp] }

/-- User-settable fields of a `Batch` before save. -/
structure BatchInput where
  product : Nat
  batch_number : String
  expiration_date : Option Nat
deriving Repr, DecidableEq

def BatchRow.create (id now : Nat) (inp : BatchInput) : BatchRow :=
  ⟨id, inp.product, inp.batch_number, inp.expiration_date,
   Timestamps.create now⟩

/-- Insert a `Batch`: the foreign key to `Product` must resolve. -/
def createBatch (db : DB) (id now : Nat) (inp : BatchInput) :
    Except DBError DB :=
  if !(db.productExists inp.product) then .error .fkViolation
  else .ok { db with batches := db.batches ++ [BatchRow.create id now inp] }

/-- User-settable fields of a `Warehouse` before save. -/
structure WarehouseInput where
  name : String
  location : String
  warehouse_type : String
deriving Repr, DecidableEq

def WarehouseRow.create (id now : Nat) (inp : WarehouseInput) : WarehouseRow :=
  ⟨id, inp.name, inp.location, inp.warehouse_type, Timestamps.create now⟩

def createWarehouse (db : DB) (id now : Nat) (inp : WarehouseInput) :
    Except DBError DB :=
  .ok { db with warehouses := db.warehouses ++ [WarehouseRow.create id now inp] }

/-- User-settable fields of an `Inventory` row before save. -/
structure InventoryInput where
  warehouse : Nat
  product : Nat
  batch : Option Nat
  quantity : Int
  cost_price : Int
  retail_price : Int
deriving Repr, DecidableEq

def InventoryRow.create (id now : Nat) (inp : InventoryInput) : InventoryRow :=
  ⟨id, inp.warehouse, inp.product, inp.batch, inp.quantity,
   inp.cost_price, inp.retail_price, Timestamps.create now⟩

/-- `unique_together = ('warehouse', 'product', 'batch')` conflict test:
SQL unique constraints treat NULL as distinct, so a conflict needs both
batch references non-null and equal. -/
def inventoryConflict (r : InventoryRow) (w p : Nat) (b : Option Nat) : Bool :=
  r.warehouse = w && r.product = p && r.batch.isSome && r.batch = b

/-- Insert an `Inventory` row: the `unique_together` triple, the two
mandatory and one optional foreign keys and the `PositiveIntegerField`
quantity guard the write. -/
def createInventory (db : DB) (id now : Nat) (inp : InventoryInput) :
    Except DBError DB :=
  if db.inventories.any
      (fun r => inventoryConflict r inp.warehouse inp.product inp.batch) then
    .error .uniqueViolation
  else if !(db.warehouseExists inp.warehouse) then .error .fkViolation
  else if !(db.productExists inp.product) then .error .fkViolation
  else if !(optRefOk db.batchExists inp.batch) then .error .fkViolation
  else if inp.quantity < 0 then .error .checkViolation
  else
    .ok { db with
          inventories := db.inventories ++ [InventoryRow.create id now inp] }

/-- User-settable fields of a `Supplier` before save. -/
structure SupplierInput where
  name : String
  contact_info : String
  address : String
  inn : String
  ogrn : String
deriving Repr, DecidableEq

def SupplierRow.create (id now : Nat) (inp : SupplierInput) : SupplierRow :=
  ⟨id, inp.name, inp.contact_info, inp.address, inp.inn, inp.ogrn,
   Timestamps.create now⟩

def createSupplier (db : DB) (id now : Nat) (inp : SupplierInput) :
    Except DBError DB :=
  .ok { db with suppliers := db.suppliers ++ [SupplierRow.create id now inp] }

/-- User-settable fields of a `PurchaseOrder` before save; `status = none`
means the field was not supplied, so the model default applies. -/
structure PurchaseOrderInput where
  supplier : Nat
  warehouse : Nat
  status : Option String
  total_cost : Int
deriving Repr, DecidableEq

def PurchaseOrderRow.create (id now : Nat) (inp : PurchaseOrderInput) :
    PurchaseOrderRow :=
  ⟨id, inp.supplier, inp.warehouse, now, inp.status.getD OrderStatus.DRAFT,
   inp.total_cost, Timestamps.create now⟩

/-- Insert a `PurchaseOrder`: foreign keys to `Supplier` and `Warehouse`
must resolve and the status must be one of `OrderStatus.choices`. -/
def createPurchaseOrder (db : DB) (id now : Nat) (inp : PurchaseOrderInput) :
    Except DBError DB :=
  if !(OrderStatus.isValid (inp.status.getD OrderStatus.DRAFT)) then
    .error .invalidChoice
  else if !(db.supplierExists inp.supplier) then .error .fkViolation
  else if !(db.warehouseExists inp.warehouse) then .error .fkViolation
  else
    .ok { db with
          purchaseOrders :=
            db.purchaseOrders ++ [PurchaseOrderRow.create id now inp] }

/-- User-settable fields of a `PurchaseOrderDetail` before save. -/
structure PurchaseOrderDetailInput where
  purchase_order : Nat
  product : Nat
  quantity : Int
  price : Int
  discount : Int
deriving Repr, DecidableEq

def PurchaseOrderDetailRow.create (id now : Nat)
    (inp : PurchaseOrderDetailInput) : PurchaseOrderDetailRow :=
  ⟨id, inp.purchase_order, inp.product, inp.quantity, inp.price,
   inp.discount, Timestamps.create now⟩

def createPurchaseOrderDetail (db : DB) (id now : Nat)
    (inp : PurchaseOrderDetailInput) : Except DBError DB :=
  if !(db.purchaseOrderExists inp.purchase_order) then .error .fkViolation
  else if !(db.productExists inp.product) then .error .fkViolation
  else if inp.quantity < 0 then .error .checkViolation
  else
    .ok { db with
          purchaseOrderDetails :=
            db.purchaseOrderDetails ++
              [PurchaseOrderDetailRow.create id now inp] }

/-- User-settable fields of a `GoodsReceipt` before save; `status = none`
means the field was not supplied, so the model default applies. -/
structure GoodsReceiptInput where
  purchase_order : Option Nat
  warehouse : Nat
  status : Option String
deriving Repr, DecidableEq

def GoodsReceiptRow.create (id now : Nat) (inp : GoodsReceiptInput) :
    GoodsReceiptRow :=
  ⟨id, inp.purchase_order, inp.warehouse, now,
   inp.status.getD ReceiptStatus.PENDING, Timestamps.create now⟩

/-- Insert a `GoodsReceipt`: the optional key to `PurchaseOrder` and the
key to `Warehouse` must resolve and the status must be one of
`ReceiptStatus.choices`. -/
def createGoodsReceipt (db : DB) (id now : Nat) (inp : GoodsReceiptInput) :
    Except DBError DB :=
  if !(ReceiptStatus.isValid (inp.status.getD ReceiptStatus.PENDING)) then
    .error .invalidChoice
  else if !(optRefOk db.purchaseOrderExists inp.purchase_order) then
    .error .fkViolation
  else if !(db.warehouseExists inp.warehouse) then .error .fkViolation
  else
    .ok { db with
          goodsReceipts := db.goodsReceipts ++ [GoodsReceiptRow.create id now inp] }

/-- User-settable fields of a `GoodsReceiptDetail` before save. -/
structure GoodsReceiptDetailInput where
  goods_receipt : Nat
  product : Nat
  batch : Option Nat
  quantity : Int
  cost_price : Int
  expiration_date : Option Nat
deriving Repr, DecidableEq

def GoodsReceiptDetailRow.create (id now : Nat)
    (inp : GoodsReceiptDetailInput) : GoodsReceiptDetailRow :=
  ⟨id, inp.goods_receipt, inp.product, inp.batch, inp.quantity,
   inp.cost_price, inp.expiration_date, Timestamps.create now⟩

def createGoodsReceiptDetail (db : DB) (id now : Nat)
    (inp : GoodsReceiptDetailInput) : Except DBError DB :=
  if !(db.goodsReceiptExists inp.goods_receipt) then .error .fkViolation
  else if !(db.productExists inp.product) then .error .fkViolation
  else if !(optRefOk db.batchExists inp.batch) then .error .fkViolation
  else if inp.quantity < 0 then .error .checkViolation
  else
    .ok { db with
          goodsReceiptDetails :=
            db.goodsReceiptDetails ++
              [GoodsReceiptDetailRow.create id now inp] }

/-- User-settable fields of a `Customer` before save. -/
structure CustomerInput where
  name : String
  surname : String
  phone : String
  email : String
  discount_card_number : String
deriving Repr, DecidableEq

def CustomerRow.create (id now : Nat) (inp : CustomerInput) : CustomerRow :=
  ⟨id, inp.name, inp.surname, inp.phone, inp.email,
   inp.discount_card_number, Timestamps.create now⟩

def createCustomer (db : DB) (id now : Nat) (inp : CustomerInput) :
    Except DBError DB :=
  .ok { db with customers := db.customers ++ [CustomerRow.create id now inp] }

/-- User-settable fields of a `Sale` before save; `status = none` and
`payment_type = none` mean the fields were not supplied, so the model
defaults apply. -/
structure SaleInput where
  warehouse : Nat
  cashier : Option Nat
  customer : Option Nat
  status : Option String
  total_amount : Int
  payment_type : Option String
deriving Repr, DecidableEq

def SaleRow.create (id now : Nat) (inp : SaleInput) : SaleRow :=
  ⟨id, inp.warehouse, inp.cashier, inp.customer, now,
   inp.status.getD SaleStatus.OPEN, inp.total_amount,
   inp.payment_type.getD "cash", Timestamps.create now⟩

/-- Insert a `Sale`: the key to `Warehouse` and the optional keys to
`User` and `Customer` must resolve and the status must be one of
`SaleStatus.choices`. -/
def createSale (db : DB) (id now : Nat) (inp : SaleInput) :
    Except DBError DB :=
  if !(SaleStatus.isValid (inp.status.getD SaleStatus.OPEN)) then
    .error .invalidChoice
  else if !(db.warehouseExists inp.warehouse) then .error .fkViolation
  else if !(optRefOk db.userExists inp.cashier) then .error .fkViolation
  else if !(optRefOk db.customerExists inp.customer) then .error .fkViolation
  else
    .ok { db with sales := db.sales ++ [SaleRow.create id now inp] }

/-- User-settable fields of a `SaleDetail` before save. -/
structure SaleDetailInput where
  sale : Nat
  product : Nat
  batch : Option Nat
  quantity : Int
  unit_price : Int
  discount : Int
deriving Repr, DecidableEq

def SaleDetailRow.create (id now : Nat) (inp : SaleDetailInput) :
    SaleDetailRow :=
  ⟨id, inp.sale, inp.product, inp.batch, inp.quantity, inp.unit_price,
   inp.discount, Timestamps.create now⟩

def createSaleDetail (db : DB) (id now : Nat) (inp : SaleDetailInput) :
    Except DBError DB :=
  if !(db.saleExists inp.sale) then .error .fkViolation
  else if !(db.productExists inp.product) then .error .fkViolation
  else if !(optRefOk db.batchExists inp.batch) then .error .fkViolation
  else if inp.quantity < 0 then .error .checkViolation
  else
    .ok { db with
          saleDetails := db.saleDetails ++ [SaleDetailRow.create id now inp] }

/-- User-settable fields of a `WriteOff` before save. -/
structure WriteOffInput where
  warehouse : Nat
  product : Nat
  batch : Option Nat
  quantity : Int
  reason : String
deriving Repr, DecidableEq

def WriteOffRow.create (id now : Nat) (inp : WriteOffInput) : WriteOffRow :=
  ⟨id, inp.warehouse, inp.product, inp.batch, inp.quantity, inp.reason,
   Timestamps.create now⟩

def createWriteOff (db : DB) (id now : Nat) (inp : WriteOffInput) :
    Except DBError DB :=
  if !(db.warehouseExists inp.warehouse) then .error .fkViolation
  else if !(db.productExists inp.product) then .error .fkViolation
  else if !(optRefOk db.batchExists inp.batch) then .error .fkViolation
  else if inp.quantity < 0 then .error .checkViolation
  else
    .ok { db with writeOffs := db.writeOffs ++ [WriteOffRow.create id now inp] }

/-- Update a `Product`'s name through `save()`: `auto_now` refreshes
`updated_at` on the touched row. -/
def updateProductName (db : DB) (p now : Nat) (newName : String) : DB :=
  { db with
    products :=
      db.products.map (fun r =>
        if r.id = p then { r with name := newName, ts := r.ts.touch now }
        else r) }

/-- Update an `Inventory` row's quantity through `save()`: the
`PositiveIntegerField` check guards the write and `auto_now` refreshes
`updated_at` on the touched row. -/
def updateInventoryQuantity (db : DB) (i now : Nat) (q : Int) :
    Except DBError DB :=
  if q < 0 then .error .checkViolation
  else
    .ok { db with
          inventories :=
            db.inventories.map (fun r =>
              if r.id = i then { r with quantity := q, ts := r.ts.touch now }
              else r) }

/-- Assign a new status to a `PurchaseOrder` and save: values outside
`OrderStatus.choices` fail validation. -/
def updatePurchaseOrderStatus (db : DB) (po now : Nat) (s : String) :
    Except DBError DB :=
  if !(OrderStatus.isValid s) then .error .invalidChoice
  else
    .ok { db with
          purchaseOrders :=
            db.purchaseOrders.map (fun r =>
              if r.id = po then { r with status := s, ts := r.ts.touch now }
              else r) }

/-- Assign a new status to a `GoodsReceipt` and save: values outside
`ReceiptStatus.choices` fail validation. -/
def updateGoodsReceiptStatus (db : DB) (gr now : Nat) (s : String) :
    Except DBError DB :=
  if !(ReceiptStatus.isValid s) then .error .invalidChoice
  else
    .ok { db with
          goodsReceipts :=
            db.goodsReceipts.map (fun r =>
              if r.id = gr then { r with status := s, ts := r.ts.touch now }
              else r) }

/-- Assign a new status to a `Sale` and save: values outside
`SaleStatus.choices` fail validation. -/
def updateSaleStatus (db : DB) (sl now : Nat) (s : String) :
    Except DBError DB :=
  if !(SaleStatus.isValid s) then .error .invalidChoice
  else
    .ok { db with
          sales :=
            db.sales.map (fun r =>
              if r.id = sl then { r with status := s, ts := r.ts.touch now }
              else r) }

/-- SET_NULL rewrite: null the batch reference when it points into the set
of deleted batch ids.  The delete collector performs this with a SQL
UPDATE, so timestamps are not refreshed. -/
def InventoryRow.clearBatches (dead : List Nat) (r : InventoryRow) :
    InventoryRow :=
  match r.batch with
  | some b => if dead.contains b then { r with batch := none } else r
  | none => r

def GoodsReceiptDetailRow.clearBatches (dead : List Nat)
    (r : GoodsReceiptDetailRow) : GoodsReceiptDetailRow :=
  match r.batch with
  | some b => if dead.contains b then { r with batch := none } else r
  | none => r

def SaleDetailRow.clearBatches (dead : List Nat) (r : SaleDetailRow) :
    SaleDetailRow :=
  match r.batch with
  | some b => if dead.contains b then { r with batch := none } else r
  | none => r

def WriteOffRow.clearBatches (dead : List Nat) (r : WriteOffRow) :
    WriteOffRow :=
  match r.batch with
  | some b => if dead.contains b then { r with batch := none } else r
  | none => r

/-- Delete a `Batch`: every nullable `batch` foreign key pointing at it
(`Inventory`, `GoodsReceiptDetail`, `SaleDetail`, `WriteOff`) is
SET_NULLed; no referring row is deleted. -/
def deleteBatch (db : DB) (b : Nat) : DB :=
  { db with
    batches := db.batches.filter (fun r => r.id ≠ b),
    inventories := db.inventories.map (InventoryRow.clearBatches [b]),
    goodsReceiptDetails :=
      db.goodsReceiptDetails.map (GoodsReceiptDetailRow.clearBatches [b]),
    saleDetails := db.saleDetails.map (SaleDetailRow.clearBatches [b]),
    writeOffs := db.writeOffs.map (WriteOffRow.clearBatches [b]) }

/-- Delete a `Product`: CASCADE removes its `Batch`es, its `Inventory`
rows and every detail/write-off line referencing it; the nullable `batch`
keys of the surviving rows that pointed at one of the cascaded batches are
SET_NULLed. -/
def deleteProduct (db : DB) (p : Nat) : DB :=
  let dead := (db.batches.filter (fun b => b.product = p)).map (fun b => b.id)
  { db with
    products := db.products.filter (fun r => r.id ≠ p),
    batches := db.batches.filter (fun b => b.product ≠ p),
    inventories :=
      (db.inventories.filter (fun r => r.product ≠ p)).map
        (InventoryRow.clearBatches dead),
    purchaseOrderDetails :=
      db.purchaseOrderDetails.filter (fun r => r.product ≠ p),
    goodsReceiptDetails :=
      (db.goodsReceiptDetails.filter (fun r => r.product ≠ p)).map
        (GoodsReceiptDetailRow.clearBatches dead),
    saleDetails :=
      (db.saleDetails.filter (fun r => r.product ≠ p)).map
        (SaleDetailRow.clearBatches dead),
    writeOffs :=
      (db.writeOffs.filter (fun r => r.product ≠ p)).map
        (WriteOffRow.clearBatches dead) }

/-- The states the schema can reach from the empty database under the
embedded operations.  `user` registers an external `auth.User` row. -/
inductive Reachable : DB → Prop where
  | empty : Reachable DB.empty
  | user (db : DB) (u : Nat) :
      Reachable db → Reachable { db with users := db.users ++ [u] }
  | product (db db' : DB) (id now : Nat) (inp : ProductInput) :
      Reachable db → createProduct db id now inp = .ok db' → Reachable db'
  | batch (db db' : DB) (id now : Nat) (inp : BatchInput) :
      Reachable db → createBatch db id now inp = .ok db' → Reachable db'
  | warehouse (db db' : DB) (id now : Nat) (inp : WarehouseInput) :
      Reachable db → createWarehouse db id now inp = .ok db' → Reachable db'
  | inventory (db db' : DB) (id now : Nat) (inp : InventoryInput) :
      Reachable db → createInventory db id now inp = .ok db' → Reachable db'
  | supplier (db db' : DB) (id now : Nat) (inp : SupplierInput) :
      Reachable db → createSupplier db id now inp = .ok db' → Reachable db'
  | purchaseOrder (db db' : DB) (id now : Nat) (inp : PurchaseOrderInput) :
      Reachable db → createPurchaseOrder db id now inp = .ok db' →
      Reachable db'
  | purchaseOrderDetail (db db' : DB) (id now : Nat)
      (inp : PurchaseOrderDetailInput) :
      Reachable db → createPurchaseOrderDetail db id now inp = .ok db' →
      Reachable db'
  | goodsReceipt (db db' : DB) (id now : Nat) (inp : GoodsReceiptInput) :
      Reachable db → createGoodsReceipt db id now inp = .ok db' →
      Reachable db'
  | goodsReceiptDetail (db db' : DB) (id now : Nat)
      (inp : GoodsReceiptDetailInput) :
      Reachable db → createGoodsReceiptDetail db id now inp = .ok db' →
      Reachable db'
  | customer (db db' : DB) (id now : Nat) (inp : CustomerInput) :
      Reachable db → createCustomer db id now inp = .ok db' → Reachable db'
  | sale (db db' : DB) (id now : Nat) (inp : SaleInput) :
      Reachable db → createSale db id now inp = .ok db' → Reachable db'
  | saleDetail (db db' : DB) (id now : Nat) (inp : SaleDetailInput) :
      Reachable db → createSaleDetail db id now inp = .ok db' → Reachable db'
  | writeOff (db db' : DB) (id now : Nat) (inp : WriteOffInput) :
      Reachable db → createWriteOff db id now inp = .ok db' → Reachable db'
  | productNameUpdate (db : DB) (p now : Nat) (nm : String) :
      Reachable db → Reachable (updateProductName db p now nm)
  | inventoryQuantityUpdate (db db' : DB) (i now : Nat) (q : Int) :
      Reachable db → updateInventoryQuantity db i now q = .ok db' →
      Reachable db'
  | purchaseOrderStatusUpdate (db db' : DB) (po now : Nat) (s : String) :
      Reachable db → updatePurchaseOrderStatus db po now s = .ok db' →
      Reachable db'
  | goodsReceiptStatusUpdate (db db' : DB) (gr now : Nat) (s : String) :
      Reachable db → updateGoodsReceiptStatus db gr now s = .ok db' →
      Reachable db'
  | saleStatusUpdate (db db' : DB) (sl now : Nat) (s : String) :
      Reachable db → updateSaleStatus db sl now s = .ok db' → Reachable db'
  | batchDelete (db : DB) (b : Nat) :
      Reachable db → Reachable (deleteBatch db b)
  | productDelete (db : DB) (p : Nat) :
      Reachable db → Reachable (deleteProduct db p)

/-- Invariant of `unique=True` on `Product.product_code`. -/
def codesUnique (db : DB) : Prop :=
  db.products.Pairwise (fun a b => a.product_code ≠ b.product_code)

/-- Invariant of the `unique_together` triple of `Inventory` under SQL NULL
semantics: no two rows agree on warehouse, product and a non-null batch. -/
def tripleUnique (db : DB) : Prop :=
  db.inventories.Pairwise (fun a b =>
    ¬(a.warehouse = b.warehouse ∧ a.product = b.product ∧
      a.batch = b.batch ∧ a.batch.isSome = true))

/-- Invariant of the `PositiveIntegerField` columns: every quantity and the
two stock thresholds are non-negative. -/
def nonNegAll (db : DB) : Prop :=
  (∀ r ∈ db.inventories, 0 ≤ r.quantity) ∧
  (∀ r ∈ db.purchaseOrderDetails, 0 ≤ r.quantity) ∧
  (∀ r ∈ db.goodsReceiptDetails, 0 ≤ r.quantity) ∧
  (∀ r ∈ db.saleDetails, 0 ≤ r.quantity) ∧
  (∀ r ∈ db.writeOffs, 0 ≤ r.quantity) ∧
  (∀ r ∈ db.products, 0 ≤ r.min_stock_level ∧ 0 ≤ r.max_stock_level)

theorem createProduct_ok_inv {db db' : DB} {id now : Nat}
    {inp : ProductInput} (h : createProduct db id now inp = .ok db') :
    db' = { db with products := db.products ++ [ProductRow.create id now inp] } ∧
    (∀ r ∈ db.products, r.product_code ≠ inp.product_code) ∧
    0 ≤ inp.min_stock_level ∧ 0 ≤ inp.max_stock_level := by
  unfold createProduct at h
  split at h
  · exact Except.noConfusion h
  · split at h
    · exact Except.noConfusion h
    · rename_i h1 h2
      injection h with h
      subst h
      refine ⟨rfl, ?_, ?_, ?_⟩
      · intro r hr he
        exact h1 (List.any_eq_true.mpr ⟨r, hr, by simpa using he⟩)
      · simp only [Bool.or_eq_true, decide_eq_true_eq] at h2
        omega
      · simp only [Bool.or_eq_true, decide_eq_true_eq] at h2
        omega

theorem createBatch_ok_inv {db db' : DB} {id now : Nat}
    {inp : BatchInput} (h : createBatch db id now inp = .ok db') :
    db' = { db with batches := db.batches ++ [BatchRow.create id now inp] } ∧
    db.productExists inp.product = true := by
  unfold createBatch at h
  split at h
  · exact Except.noConfusion h
  · rename_i h1
    injection h with h
    subst h
    exact ⟨rfl, by simpa using h1⟩

theorem createWarehouse_ok_inv {db db' : DB} {id now : Nat}
    {inp : WarehouseInput} (h : createWarehouse db id now inp = .ok db') :
    db' = { db with
            warehouses := db.warehouses ++ [WarehouseRow.create id now inp] } := by
  unfold createWarehouse at h
  injection h with h
  exact h.symm

theorem createInventory_ok_inv {db db' : DB} {id now : Nat}
    {inp : InventoryInput} (h : createInventory db id now inp = .ok db') :
    db' = { db with
            inventories := db.inventories ++ [InventoryRow.create id now inp] } ∧
    (∀ r ∈ db.inventories,
      ¬(inventoryConflict r inp.warehouse inp.product inp.batch = true)) ∧
    0 ≤ inp.quantity := by
  unfold createInventory at h
  split at h
  · exact Except.noConfusion h
  · split at h
    · exact Except.noConfusion h
    · split at h
      · exact Except.noConfusion h
      · split at h
        · exact Except.noConfusion h
        · split at h
          · exact Except.noConfusion h
          · rename_i h1 _ _ _ h5
            injection h with h
            subst h
            refine ⟨rfl, ?_, by omega⟩
            intro r hr hc
            exact h1 (List.any_eq_true.mpr ⟨r, hr, hc⟩)

theorem createSupplier_ok_inv {db db' : DB} {id now : Nat}
    {inp : SupplierInput} (h : createSupplier db id now inp = .ok db') :
    db' = { db with
            suppliers := db.suppliers ++ [SupplierRow.create id now inp] } := by
  unfold createSupplier at h
  injection h with h
  exact h.symm

theorem createPurchaseOrder_ok_inv {db db' : DB} {id now : Nat}
    {inp : PurchaseOrderInput}
    (h : createPurchaseOrder db id now inp = .ok db') :
    db' = { db with
            purchaseOrders :=
              db.purchaseOrders ++ [PurchaseOrderRow.create id now inp] } ∧
    OrderStatus.isValid (inp.status.getD OrderStatus.DRAFT) = true := by
  unfold createPurchaseOrder at h
  split at h
  · exact Except.noConfusion h
  · split at h
    · exact Except.noConfusion h
    · split at h
      · exact Except.noConfusion h
      · rename_i h1 _ _
        injection h with h
        subst h
        exact ⟨rfl, by simpa using h1⟩

theorem createPurchaseOrderDetail_ok_inv {db db' : DB} {id now : Nat}
    {inp : PurchaseOrderDetailInput}
    (h : createPurchaseOrderDetail db id now inp = .ok db') :
    db' = { db with
            purchaseOrderDetails :=
              db.purchaseOrderDetails ++
                [PurchaseOrderDetailRow.create id now inp] } ∧
    0 ≤ inp.quantity := by
  unfold createPurchaseOrderDetail at h
  split at h
  · exact Except.noConfusion h
  · split at h
    · exact Except.noConfusion h
    · split at h
      · exact Except.noConfusion h
      · rename_i h3
        injection h with h
        subst h
        exact ⟨rfl, by omega⟩

theorem createGoodsReceipt_ok_inv {db db' : DB} {id now : Nat}
    {inp : GoodsReceiptInput}
    (h : createGoodsReceipt db id now inp = .ok db') :
    db' = { db with
            goodsReceipts :=
              db.goodsReceipts ++ [GoodsReceiptRow.create id now inp] } ∧
    ReceiptStatus.isValid (inp.status.getD ReceiptStatus.PENDING) = true := by
  unfold createGoodsReceipt at h
  split at h
  · exact Except.noConfusion h
  · split at h
    · exact Except.noConfusion h
    · split at h
      · exact Except.noConfusion h
      · rename_i h1 _ _
        injection h with h
        subst h
        exact ⟨rfl, by simpa using h1⟩

theorem createGoodsReceiptDetail_ok_inv {db db' : DB} {id now : Nat}
    {inp : GoodsReceiptDetailInput}
    (h : createGoodsReceiptDetail db id now inp = .ok db') :
    db' = { db with
            goodsReceiptDetails :=
              db.goodsReceiptDetails ++
                [GoodsReceiptDetailRow.create id now inp] } ∧
    0 ≤ inp.quantity := by
  unfold createGoodsReceiptDetail at h
  split at h
  · exact Except.noConfusion h
  · split at h
    · exact Except.noConfusion h
    · split at h
      · exact Except.noConfusion h
      · split at h
        · exact Except.noConfusion h
        · rename_i h4
          injection h with h
          subst h
          exact ⟨rfl, by omega⟩

theorem createCustomer_ok_inv {db db' : DB} {id now : Nat}
    {inp : CustomerInput} (h : createCustomer db id now inp = .ok db') :
    db' = { db with
            customers := db.customers ++ [CustomerRow.create id now inp] } := by
  unfold createCustomer at h
  injection h with h
  exact h.symm

theorem createSale_ok_inv {db db' : DB} {id now : Nat} {inp : SaleInput}
    (h : createSale db id now inp = .ok db') :
    db' = { db with sales := db.sales ++ [SaleRow.create id now inp] } ∧
    SaleStatus.isValid (inp.status.getD SaleStatus.OPEN) = true := by
  unfold createSale at h
  split at h
  · exact Except.noConfusion h
  · split at h
    · exact Except.noConfusion h
    · split at h
      · exact Except.noConfusion h
      · split at h
        · exact Except.noConfusion h
        · rename_i h1 _ _ _
          injection h with h
          subst h
          exact ⟨rfl, by simpa using h1⟩

theorem createSaleDetail_ok_inv {db db' : DB} {id now : Nat}
    {inp : SaleDetailInput} (h : createSaleDetail db id now inp = .ok db') :
    db' = { db with
            saleDetails := db.saleDetails ++ [SaleDetailRow.create id now inp] } ∧
    0 ≤ inp.quantity := by
  unfold createSaleDetail at h
  split at h
  · exact Except.noConfusion h
  · split at h
    · exact Except.noConfusion h
    · split at h
      · exact Except.noConfusion h
      · split at h
        · exact Except.noConfusion h
        · rename_i h4
          injection h with h
          subst h
          exact ⟨rfl, by omega⟩

theorem createWriteOff_ok_inv {db db' : DB} {id now : Nat}
    {inp : WriteOffInput} (h : createWriteOff db id now inp = .ok db') :
    db' = { db with
            writeOffs := db.writeOffs ++ [WriteOffRow.create id now inp] } ∧
    0 ≤ inp.quantity := by
  unfold createWriteOff at h
  split at h
  · exact Except.noConfusion h
  · split at h
    · exact Except.noConfusion h
    · split at h
      · exact Except.noConfusion h
      · split at h
        · exact Except.noConfusion h
        · rename_i h4
          injection h with h
          subst h
          exact ⟨rfl, by omega⟩

theorem updateInventoryQuantity_ok_inv {db db' : DB} {i now : Nat} {q : Int}
    (h : updateInventoryQuantity db i now q = .ok db') :
    db' = { db with
            inventories :=
              db.inventories.map (fun r =>
                if r.id = i then { r with quantity := q, ts := r.ts.touch now }
                else r) } ∧
    0 ≤ q := by
  unfold updateInventoryQuantity at h
  split at h
  · exact Except.noConfusion h
  · rename_i h1
    injection h with h
    subst h
    exact ⟨rfl, by omega⟩

theorem updatePurchaseOrderStatus_ok_inv {db db' : DB} {po now : Nat}
    {s : String} (h : updatePurchaseOrderStatus db po now s = .ok db') :
    db' = { db with
            purchaseOrders :=
              db.purchaseOrders.map (fun r =>
                if r.id = po then { r with status := s, ts := r.ts.touch now }
                else r) } ∧
    OrderStatus.isValid s = true := by
  unfold updatePurchaseOrderStatus at h
  split at h
  · exact Except.noConfusion h
  · rename_i h1
    injection h with h
    subst h
    exact ⟨rfl, by simpa using h1⟩

theorem updateGoodsReceiptStatus_ok_inv {db db' : DB} {gr now : Nat}
    {s : String} (h : updateGoodsReceiptStatus db gr now s = .ok db') :
    db' = { db with
            goodsReceipts :=
              db.goodsReceipts.map (fun r =>
                if r.id = gr then { r with status := s, ts := r.ts.touch now }
                else r) } ∧
    ReceiptStatus.isValid s = true := by
  unfold updateGoodsReceiptStatus at h
  split at h
  · exact Except.noConfusion h
  · rename_i h1
    injection h with h
    subst h
    exact ⟨rfl, by simpa using h1⟩

theorem updateSaleStatus_ok_inv {db db' : DB} {sl now : Nat} {s : String}
    (h : updateSaleStatus db sl now s = .ok db') :
    db' = { db with
            sales :=
              db.sales.map (fun r =>
                if r.id = sl then { r with status := s, ts := r.ts.touch now }
                else r) } ∧
    SaleStatus.isValid s = true := by
  unfold updateSaleStatus at h
  split at h
  · exact Except.noConfusion h
  · rename_i h1
    injection h with h
    subst h
    exact ⟨rfl, by simpa using h1⟩

theorem invClearBatches_eq (dead : List Nat) (r : InventoryRow) :
    InventoryRow.clearBatches dead r = r ∨
    InventoryRow.clearBatches dead r = { r with batch := none } := by
  unfold InventoryRow.clearBatches
  split
  · split
    · exact .inr rfl
    · exact .inl rfl
  · exact .inl rfl

theorem grdClearBatches_eq (dead : List Nat)
    (r : GoodsReceiptDetailRow) :
    GoodsReceiptDetailRow.clearBatches dead r = r ∨
    GoodsReceiptDetailRow.clearBatches dead r = { r with batch := none } := by
  unfold GoodsReceiptDetailRow.clearBatches
  split
  · split
    · exact .inr rfl
    · exact .inl rfl
  · exact .inl rfl

theorem sdClearBatches_eq (dead : List Nat) (r : SaleDetailRow) :
    SaleDetailRow.clearBatches dead r = r ∨
    SaleDetailRow.clearBatches dead r = { r with batch := none } := by
  unfold SaleDetailRow.clearBatches
  split
  · split
    · exact .inr rfl
    · exact .inl rfl
  · exact .inl rfl

theorem woClearBatches_eq (dead : List Nat) (r : WriteOffRow) :
    WriteOffRow.clearBatches dead r = r ∨
    WriteOffRow.clearBatches dead r = { r with batch := none } := by
  unfold WriteOffRow.clearBatches
  split
  · split
    · exact .inr rfl
    · exact .inl rfl
  · exact .inl rfl

theorem invClearBatches_quantity (dead : List Nat)
    (r : InventoryRow) :
    (InventoryRow.clearBatches dead r).quantity = r.quantity := by
  rcases invClearBatches_eq dead r with h | h <;> rw [h]

theorem grdClearBatches_quantity (dead : List Nat)
    (r : GoodsReceiptDetailRow) :
    (GoodsReceiptDetailRow.clearBatches dead r).quantity = r.quantity := by
  rcases grdClearBatches_eq dead r with h | h <;> rw [h]

theorem sdClearBatches_quantity (dead : List Nat)
    (r : SaleDetailRow) :
    (SaleDetailRow.clearBatches dead r).quantity = r.quantity := by
  rcases sdClearBatches_eq dead r with h | h <;> rw [h]

theorem woClearBatches_quantity (dead : List Nat)
    (r : WriteOffRow) :
    (WriteOffRow.clearBatches dead r).quantity = r.quantity := by
  rcases woClearBatches_eq dead r with h | h <;> rw [h]

theorem reachable_codesUnique {db : DB} (h : Reachable db) : codesUnique db := by
  induction h with
  | empty => exact List.Pairwise.nil
  | user db u _ ih => exact ih
  | product db db' id now inp _ hok ih =>
    obtain ⟨rfl, hfresh, _, _⟩ := createProduct_ok_inv hok
    unfold codesUnique at ih ⊢
    rw [List.pairwise_append]
    refine ⟨ih, List.pairwise_singleton _ _, ?_⟩
    intro a ha b hb
    rw [List.mem_singleton] at hb
    subst hb
    intro e
    exact hfresh a ha e
  | batch db db' id now inp _ hok ih =>
    obtain ⟨rfl, -⟩ := createBatch_ok_inv hok
    exact ih
  | warehouse db db' id now inp _ hok ih =>
    obtain rfl := createWarehouse_ok_inv hok
    exact ih
  | inventory db db' id now inp _ hok ih =>
    obtain ⟨rfl, -, -⟩ := createInventory_ok_inv hok
    exact ih
  | supplier db db' id now inp _ hok ih =>
    obtain rfl := createSupplier_ok_inv hok
    exact ih
  | purchaseOrder db db' id now inp _ hok ih =>
    obtain ⟨rfl, -⟩ := createPurchaseOrder_ok_inv hok
    exact ih
  | purchaseOrderDetail db db' id now inp _ hok ih =>
    obtain ⟨rfl, -⟩ := createPurchaseOrderDetail_ok_inv hok
    exact ih
  | goodsReceipt db db' id now inp _ hok ih =>
    obtain ⟨rfl, -⟩ := createGoodsReceipt_ok_inv hok
    exact ih
  | goodsReceiptDetail db db' id now inp _ hok ih =>
    obtain ⟨rfl, -⟩ := createGoodsReceiptDetail_ok_inv hok
    exact ih
  | customer db db' id now inp _ hok ih =>
    obtain rfl := createCustomer_ok_inv hok
    exact ih
  | sale db db' id now inp _ hok ih =>
    obtain ⟨rfl, -⟩ := createSale_ok_inv hok
    exact ih
  | saleDetail db db' id now inp _ hok ih =>
    obtain ⟨rfl, -⟩ := createSaleDetail_ok_inv hok
    exact ih
  | writeOff db db' id now inp _ hok ih =>
    obtain ⟨rfl, -⟩ := createWriteOff_ok_inv hok
    exact ih
  | productNameUpdate db p now nm _ ih =>
    unfold codesUnique at ih ⊢
    unfold updateProductName
    refine List.Pairwise.map _ ?_ ih
    intro a b hab
    by_cases ha : a.id = p <;> by_cases hb : b.id = p <;>
      simp only [ha, hb, if_true, if_false] <;> exact hab
  | inventoryQuantityUpdate db db' i now q _ hok ih =>
    obtain ⟨rfl, -⟩ := updateInventoryQuantity_ok_inv hok
    exact ih
  | purchaseOrderStatusUpdate db db' po now s _ hok ih =>
    obtain ⟨rfl, -⟩ := updatePurchaseOrderStatus_ok_inv hok
    exact ih
  | goodsReceiptStatusUpdate db db' gr now s _ hok ih =>
    obtain ⟨rfl, -⟩ := updateGoodsReceiptStatus_ok_inv hok
    exact ih
  | saleStatusUpdate db db' sl now s _ hok ih =>
    obtain ⟨rfl, -⟩ := updateSaleStatus_ok_inv hok
    exact ih
  | batchDelete db b _ ih => exact ih
  | productDelete db p _ ih =>
    exact List.Pairwise.sublist (List.filter_sublist _) ih

theorem invClearBatches_pres (dead : List Nat) (a b : InventoryRow)
    (hab : ¬(a.warehouse = b.warehouse ∧ a.product = b.product ∧
      a.batch = b.batch ∧ a.batch.isSome = true)) :
    ¬((InventoryRow.clearBatches dead a).warehouse =
        (InventoryRow.clearBatches dead b).warehouse ∧
      (InventoryRow.clearBatches dead a).product =
        (InventoryRow.clearBatches dead b).product ∧
      (InventoryRow.clearBatches dead a).batch =
        (InventoryRow.clearBatches dead b).batch ∧
      (InventoryRow.clearBatches dead a).batch.isSome = true) := by
  rcases invClearBatches_eq dead a with ha | ha <;>
    rcases invClearBatches_eq dead b with hb | hb <;> rw [ha, hb]
  · exact hab
  · rintro ⟨-, -, h3, h4⟩
    simp at h3
    rw [h3] at h4
    simp at h4
  · rintro ⟨-, -, -, h4⟩
    simp at h4
  · rintro ⟨-, -, -, h4⟩
    simp at h4

theorem reachable_tripleUnique {db : DB} (h : Reachable db) :
    tripleUnique db := by
  induction h with
  | empty => exact List.Pairwise.nil
  | user db u _ ih => exact ih
  | product db db' id now inp _ hok ih =>
    obtain ⟨rfl, -, -, -⟩ := createProduct_ok_inv hok
    exact ih
  | batch db db' id now inp _ hok ih =>
    obtain ⟨rfl, -⟩ := createBatch_ok_inv hok
    exact ih
  | warehouse db db' id now inp _ hok ih =>
    obtain rfl := createWarehouse_ok_inv hok
    exact ih
  | inventory db db' id now inp _ hok ih =>
    obtain ⟨rfl, hfresh, -⟩ := createInventory_ok_inv hok
    unfold tripleUnique at ih ⊢
    rw [List.pairwise_append]
    refine ⟨ih, List.pairwise_singleton _ _, ?_⟩
    intro a ha b hb
    rw [List.mem_singleton] at hb
    subst hb
    rintro ⟨h1, h2, h3, h4⟩
    apply hfresh a ha
    unfold inventoryConflict
    simp only [InventoryRow.create] at h1 h2 h3
    rw [h3] at h4
    simp [h1, h2, h3, h4]
  | supplier db db' id now inp _ hok ih =>
    obtain rfl := createSupplier_ok_inv hok
    exact ih
  | purchaseOrder db db' id now inp _ hok ih =>
    obtain ⟨rfl, -⟩ := createPurchaseOrder_ok_inv hok
    exact ih
  | purchaseOrderDetail db db' id now inp _ hok ih =>
    obtain ⟨rfl, -⟩ := createPurchaseOrderDetail_ok_inv hok
    exact ih
  | goodsReceipt db db' id now inp _ hok ih =>
    obtain ⟨rfl, -⟩ := createGoodsReceipt_ok_inv hok
    exact ih
  | goodsReceiptDetail db db' id now inp _ hok ih =>
    obtain ⟨rfl, -⟩ := createGoodsReceiptDetail_ok_inv hok
    exact ih
  | customer db db' id now inp _ hok ih =>
    obtain rfl := createCustomer_ok_inv hok
    exact ih
  | sale db db' id now inp _ hok ih =>
    obtain ⟨rfl, -⟩ := createSale_ok_inv hok
    exact ih
  | saleDetail db db' id now inp _ hok ih =>
    obtain ⟨rfl, -⟩ := createSaleDetail_ok_inv hok
    exact ih
  | writeOff db db' id now inp _ hok ih =>
    obtain ⟨rfl, -⟩ := createWriteOff_ok_inv hok
    exact ih
  | productNameUpdate db p now nm _ ih => exact ih
  | inventoryQuantityUpdate db db' i now q _ hok ih =>
    obtain ⟨rfl, -⟩ := updateInventoryQuantity_ok_inv hok
    unfold tripleUnique at ih ⊢
    refine List.Pairwise.map _ ?_ ih
    intro a b hab
    by_cases ha : a.id = i <;> by_cases hb2 : b.id = i <;>
      simpa [ha, hb2] using hab
  | purchaseOrderStatusUpdate db db' po now s _ hok ih =>
    obtain ⟨rfl, -⟩ := updatePurchaseOrderStatus_ok_inv hok
    exact ih
  | goodsReceiptStatusUpdate db db' gr now s _ hok ih =>
    obtain ⟨rfl, -⟩ := updateGoodsReceiptStatus_ok_inv hok
    exact ih
  | saleStatusUpdate db db' sl now s _ hok ih =>
    obtain ⟨rfl, -⟩ := updateSaleStatus_ok_inv hok
    exact ih
  | batchDelete db b _ ih =>
    unfold tripleUnique at ih ⊢
    unfold deleteBatch
    refine List.Pairwise.map _ ?_ ih
    intro x y hxy
    exact invClearBatches_pres _ x y hxy
  | productDelete db p _ ih =>
    unfold tripleUnique at ih ⊢
    unfold deleteProduct
    refine List.Pairwise.map _ ?_
      (List.Pairwise.sublist (List.filter_sublist _) ih)
    intro x y hxy
    exact invClearBatches_pres _ x y hxy

theorem reachable_nonNegAll {db : DB} (h : Reachable db) : nonNegAll db := by
  induction h with
  | empty =>
    refine ⟨?_, ?_, ?_, ?_, ?_, ?_⟩ <;> intro r hr <;> exact absurd hr
      (List.not_mem_nil r)
  | user db u _ ih => exact ih
  | product db db' id now inp _ hok ih =>
    obtain ⟨rfl, -, hmin, hmax⟩ := createProduct_ok_inv hok
    obtain ⟨i1, i2, i3, i4, i5, i6⟩ := ih
    refine ⟨i1, i2, i3, i4, i5, ?_⟩
    intro r hr
    rcases List.mem_append.mp hr with hm | hm
    · exact i6 r hm
    · rw [List.mem_singleton] at hm
      subst hm
      exact ⟨hmin, hmax⟩
  | batch db db' id now inp _ hok ih =>
    obtain ⟨rfl, -⟩ := createBatch_ok_inv hok
    exact ih
  | warehouse db db' id now inp _ hok ih =>
    obtain rfl := createWarehouse_ok_inv hok
    exact ih
  | inventory db db' id now inp _ hok ih =>
    obtain ⟨rfl, -, hq⟩ := createInventory_ok_inv hok
    obtain ⟨i1, i2, i3, i4, i5, i6⟩ := ih
    refine ⟨?_, i2, i3, i4, i5, i6⟩
    intro r hr
    rcases List.mem_append.mp hr with hm | hm
    · exact i1 r hm
    · rw [List.mem_singleton] at hm
      subst hm
      exact hq
  | supplier db db' id now inp _ hok ih =>
    obtain rfl := createSupplier_ok_inv hok
    exact ih
  | purchaseOrder db db' id now inp _ hok ih =>
    obtain ⟨rfl, -⟩ := createPurchaseOrder_ok_inv hok
    exact ih
  | purchaseOrderDetail db db' id now inp _ hok ih =>
    obtain ⟨rfl, hq⟩ := createPurchaseOrderDetail_ok_inv hok
    obtain ⟨i1, i2, i3, i4, i5, i6⟩ := ih
    refine ⟨i1, ?_, i3, i4, i5, i6⟩
    intro r hr
    rcases List.mem_append.mp hr with hm | hm
    · exact i2 r hm
    · rw [List.mem_singleton] at hm
      subst hm
      exact hq
  | goodsReceipt db db' id now inp _ hok ih =>
    obtain ⟨rfl, -⟩ := createGoodsReceipt_ok_inv hok
    exact ih
  | goodsReceiptDetail db db' id now inp _ hok ih =>
    obtain ⟨rfl, hq⟩ := createGoodsReceiptDetail_ok_inv hok
    obtain ⟨i1, i2, i3, i4, i5, i6⟩ := ih
    refine ⟨i1, i2, ?_, i4, i5, i6⟩
    intro r hr
    rcases List.mem_append.mp hr with hm | hm
    · exact i3 r hm
    · rw [List.mem_singleton] at hm
      subst hm
      exact hq
  | customer db db' id now inp _ hok ih =>
    obtain rfl := createCustomer_ok_inv hok
    exact ih
  | sale db db' id now inp _ hok ih =>
    obtain ⟨rfl, -⟩ := createSale_ok_inv hok
    exact ih
  | saleDetail db db' id now inp _ hok ih =>
    obtain ⟨rfl, hq⟩ := createSaleDetail_ok_inv hok
    obtain ⟨i1, i2, i3, i4, i5, i6⟩ := ih
    refine ⟨i1, i2, i3, ?_, i5, i6⟩
    intro r hr
    rcases List.mem_append.mp hr with hm | hm
    · exact i4 r hm
    · rw [List.mem_singleton] at hm
      subst hm
      exact hq
  | writeOff db db' id now inp _ hok ih =>
    obtain ⟨rfl, hq⟩ := createWriteOff_ok_inv hok
    obtain ⟨i1, i2, i3, i4, i5, i6⟩ := ih
    refine ⟨i1, i2, i3, i4, ?_, i6⟩
    intro r hr
    rcases List.mem_append.mp hr with hm | hm
    · exact i5 r hm
    · rw [List.mem_singleton] at hm
      subst hm
      exact hq
  | productNameUpdate db p now nm _ ih =>
    obtain ⟨i1, i2, i3, i4, i5, i6⟩ := ih
    refine ⟨i1, i2, i3, i4, i5, ?_⟩
    intro r hr
    obtain ⟨s, hs, rfl⟩ := List.mem_map.mp hr
    by_cases hid : s.id = p <;> simpa [hid] using i6 s hs
  | inventoryQuantityUpdate db db' i now q _ hok ih =>
    obtain ⟨rfl, hq⟩ := updateInventoryQuantity_ok_inv hok
    obtain ⟨i1, i2, i3, i4, i5, i6⟩ := ih
    refine ⟨?_, i2, i3, i4, i5, i6⟩
    intro r hr
    obtain ⟨s, hs, rfl⟩ := List.mem_map.mp hr
    by_cases hid : s.id = i
    · simpa [hid] using hq
    · simpa [hid] using i1 s hs
  | purchaseOrderStatusUpdate db db' po now s _ hok ih =>
    obtain ⟨rfl, -⟩ := updatePurchaseOrderStatus_ok_inv hok
    exact ih
  | goodsReceiptStatusUpdate db db' gr now s _ hok ih =>
    obtain ⟨rfl, -⟩ := updateGoodsReceiptStatus_ok_inv hok
    exact ih
  | saleStatusUpdate db db' sl now s _ hok ih =>
    obtain ⟨rfl, -⟩ := updateSaleStatus_ok_inv hok
    exact ih
  | batchDelete db b _ ih =>
    obtain ⟨i1, i2, i3, i4, i5, i6⟩ := ih
    refine ⟨?_, i2, ?_, ?_, ?_, i6⟩
    · intro r hr
      obtain ⟨s, hs, rfl⟩ := List.mem_map.mp hr
      rw [invClearBatches_quantity]
      exact i1 s hs
    · intro r hr
      obtain ⟨s, hs, rfl⟩ := List.mem_map.mp hr
      rw [grdClearBatches_quantity]
      exact i3 s hs
    · intro r hr
      obtain ⟨s, hs, rfl⟩ := List.mem_map.mp hr
      rw [sdClearBatches_quantity]
      exact i4 s hs
    · intro r hr
      obtain ⟨s, hs, rfl⟩ := List.mem_map.mp hr
      rw [woClearBatches_quantity]
      exact i5 s hs
  | productDelete db p _ ih =>
    obtain ⟨i1, i2, i3, i4, i5, i6⟩ := ih
    refine ⟨?_, ?_, ?_, ?_, ?_, ?_⟩
    · intro r hr
      obtain ⟨s, hs, rfl⟩ := List.mem_map.mp hr
      rw [invClearBatches_quantity]
      exact i1 s (List.mem_filter.mp hs).1
    · intro r hr
      exact i2 r (List.mem_filter.mp hr).1
    · intro r hr
      obtain ⟨s, hs, rfl⟩ := List.mem_map.mp hr
      rw [grdClearBatches_quantity]
      exact i3 s (List.mem_filter.mp hs).1
    · intro r hr
      obtain ⟨s, hs, rfl⟩ := List.mem_map.mp hr
      rw [sdClearBatches_quantity]
      exact i4 s (List.mem_filter.mp hs).1
    · intro r hr
      obtain ⟨s, hs, rfl⟩ := List.mem_map.mp hr
      rw [woClearBatches_quantity]
      exact i5 s (List.mem_filter.mp hs).1
    · intro r hr
      exact i6 r (List.mem_filter.mp hr).1

/-- The two deletion behaviors used in the schema. -/
inductive OnDelete where
  | cascade
  | setNull
deriving Repr, DecidableEq

/-- A foreign-key declaration of the schema: owning table, field name,
target table, `on_delete` behavior and nullability. -/
structure ForeignKey where
  table : String
  field : String
  target : String
  onDelete : OnDelete
  nullable : Bool
deriving Repr, DecidableEq

/-- Every `models.ForeignKey(...)` declared in the schema, in source
order. -/
def schemaForeignKeys : List ForeignKey :=
  [⟨"Batch", "product", "Product", .cascade, false⟩,
   ⟨"Inventory", "warehouse", "Warehouse", .cascade, false⟩,
   ⟨"Inventory", "product", "Product", .cascade, false⟩,
   ⟨"Inventory", "batch", "Batch", .setNull, true⟩,
   ⟨"PurchaseOrder", "supplier", "Supplier", .cascade, false⟩,
   ⟨"PurchaseOrder", "warehouse", "Warehouse", .cascade, false⟩,
   ⟨"PurchaseOrderDetail", "purchase_order", "PurchaseOrder", .cascade, false⟩,
   ⟨"PurchaseOrderDetail", "product", "Product", .cascade, false⟩,
   ⟨"GoodsReceipt", "purchase_order", "PurchaseOrder", .setNull, true⟩,
   ⟨"GoodsReceipt", "warehouse", "Warehouse", .cascade, false⟩,
   ⟨"GoodsReceiptDetail", "goods_receipt", "GoodsReceipt", .cascade, false⟩,
   ⟨"GoodsReceiptDetail", "product", "Product", .cascade, false⟩,
   ⟨"GoodsReceiptDetail", "batch", "Batch", .setNull, true⟩,
   ⟨"Sale", "warehouse", "Warehouse", .cascade, false⟩,
   ⟨"Sale", "cashier", "User", .setNull, true⟩,
   ⟨"Sale", "customer", "Customer", .setNull, true⟩,
   ⟨"SaleDetail", "sale", "Sale", .cascade, false⟩,
   ⟨"SaleDetail", "product", "Product", .cascade, false⟩,
   ⟨"SaleDetail", "batch", "Batch", .setNull, true⟩,
   ⟨"WriteOff", "warehouse", "Warehouse", .cascade, false⟩,
   ⟨"WriteOff", "product", "Product", .cascade, false⟩,
   ⟨"WriteOff", "batch", "Batch", .setNull, true⟩]

/-- The optional cross-references named by the specification: the `batch`
keys, `Sale.cashier`, `Sale.customer` and `GoodsReceipt.purchase_order`. -/
def isOptionalCrossRef (fk : ForeignKey) : Bool :=
  fk.field = "batch" ||
  (fk.table = "Sale" && fk.field = "cashier") ||
  (fk.table = "Sale" && fk.field = "customer") ||
  (fk.table = "GoodsReceipt" && fk.field = "purchase_order")

/-- The compositional-parent references named by the specification:
detail lines to their header, `Batch`/`Inventory` to `Product`, and
documents to `Warehouse`. -/
def isCompositionalChildRef (fk : ForeignKey) : Bool :=
  (fk.table = "PurchaseOrderDetail" && fk.field = "purchase_order") ||
  (fk.table = "GoodsReceiptDetail" && fk.field = "goods_receipt") ||
  (fk.table = "SaleDetail" && fk.field = "sale") ||
  (fk.table = "Batch" && fk.field = "product") ||
  (fk.table = "Inventory" && fk.field = "product") ||
  fk.field = "warehouse"

def sampleProductInput : ProductInput :=
  ⟨"Aspirin", "A-100", "tablets", "ASA", "Bayer", false, 0, 0⟩

def sampleWarehouseInput : WarehouseInput := ⟨"Main", "", ""⟩

def sampleBatchInput : BatchInput := ⟨1, "B-1", none⟩

/-- One product with code `A-100`, created at tick 0. -/
def sampleDB1 : DB :=
  { DB.empty with products := [ProductRow.create 1 0 sampleProductInput] }

/-- `sampleDB1` plus one warehouse. -/
def dbPW : DB :=
  { sampleDB1 with warehouses := [WarehouseRow.create 1 0 sampleWarehouseInput] }

/-- `dbPW` plus one batch of product 1. -/
def dbPWB : DB :=
  { dbPW with batches := [BatchRow.create 1 0 sampleBatchInput] }

theorem sampleDB1_reachable : Reachable sampleDB1 :=
  Reachable.product DB.empty sampleDB1 1 0 sampleProductInput Reachable.empty
    (by decide)

theorem dbPWB_reachable : Reachable dbPWB :=
  Reachable.batch dbPW dbPWB 1 0 sampleBatchInput
    (Reachable.warehouse sampleDB1 dbPW 1 0 sampleWarehouseInput
      sampleDB1_reachable (by decide))
    (by decide)

/-- Inventory input for (warehouse 1, product 1, batch 1). -/
def invInputB : InventoryInput := ⟨1, 1, some 1, 5, 0, 0⟩

/-- Inventory input for (warehouse 1, product 1, NULL batch). -/
def invInputN : InventoryInput := ⟨1, 1, none, 5, 0, 0⟩

def dbInvSome : DB :=
  { dbPWB with inventories := [InventoryRow.create 10 0 invInputB] }

def dbInvNone : DB :=
  { dbPWB with inventories := [InventoryRow.create 10 0 invInputN] }

theorem dbInvSome_reachable : Reachable dbInvSome :=
  Reachable.inventory dbPWB dbInvSome 10 0 invInputB dbPWB_reachable (by decide)

theorem dbInvNone_reachable : Reachable dbInvNone :=
  Reachable.inventory dbPWB dbInvNone 10 0 invInputN dbPWB_reachable (by decide)

theorem invClearBatches_fields (dead : List Nat)
    (r : InventoryRow) :
    (InventoryRow.clearBatches dead r).id = r.id ∧
    (InventoryRow.clearBatches dead r).warehouse = r.warehouse ∧
    (InventoryRow.clearBatches dead r).product = r.product ∧
    (InventoryRow.clearBatches dead r).quantity = r.quantity ∧
    (InventoryRow.clearBatches dead r).cost_price = r.cost_price ∧
    (InventoryRow.clearBatches dead r).retail_price = r.retail_price ∧
    (InventoryRow.clearBatches dead r).ts = r.ts := by
  rcases invClearBatches_eq dead r with h | h <;> rw [h] <;>
    exact ⟨rfl, rfl, rfl, rfl, rfl, rfl, rfl⟩

theorem grdClearBatches_product (dead : List Nat)
    (r : GoodsReceiptDetailRow) :
    (GoodsReceiptDetailRow.clearBatches dead r).product = r.product := by
  rcases grdClearBatches_eq dead r with h | h <;> rw [h]

theorem sdClearBatches_product (dead : List Nat)
    (r : SaleDetailRow) :
    (SaleDetailRow.clearBatches dead r).product = r.product := by
  rcases sdClearBatches_eq dead r with h | h <;> rw [h]

theorem woClearBatches_product (dead : List Nat)
    (r : WriteOffRow) :
    (WriteOffRow.clearBatches dead r).product = r.product := by
  rcases woClearBatches_eq dead r with h | h <;> rw [h]

theorem invClearBatches_batch_some (dead : List Nat)
    (s : InventoryRow) (bid : Nat)
    (h : (InventoryRow.clearBatches dead s).batch = some bid) :
    s.batch = some bid ∧ dead.contains bid = false := by
  unfold InventoryRow.clearBatches at h
  split at h
  next x hx =>
    split at h
    next hc => simp at h
    next hc =>
      have hxbid : x = bid := by simpa using hx.symm.trans h
      subst hxbid
      exact ⟨h, by simpa using hc⟩
  next hx =>
    rw [hx] at h
    exact Option.noConfusion h

theorem invClearBatches_single_batch (b : Nat) (r : InventoryRow) :
    (InventoryRow.clearBatches [b] r).batch =
      (if r.batch = some b then none else r.batch) := by
  unfold InventoryRow.clearBatches
  split
  next x hx =>
    rw [hx]
    by_cases hxb : x = b
    · subst hxb
      simp
    · simp [hxb, hx]
  next hx =>
    rw [hx]
    simp

/-- Claim C1: creating a second `Product` with an already-used
`product_code` fails with a uniqueness violation, and in every reachable
catalog state `product_code` is unique across all products. -/
theorem product_code_uniqueness (db : DB) (id now : Nat)
    (inp : ProductInput) (hdb : Reachable db) :
    ((∃ r ∈ db.products, r.product_code = inp.product_code) →
      createProduct db id now inp = .error .uniqueViolation) ∧
    codesUnique db := by
  refine ⟨?_, reachable_codesUnique hdb⟩
  rintro ⟨r, hr, he⟩
  have hc : db.products.any
      (fun q => q.product_code = inp.product_code) = true :=
    List.any_eq_true.mpr ⟨r, hr, by simpa using he⟩
  simp [createProduct, hc]

/-- Witness for C1: in the reachable one-product state `sampleDB1`,
re-creating a product with code `A-100` fails with a uniqueness
violation. -/
theorem product_code_uniqueness_witness :
    createProduct sampleDB1 2 1 sampleProductInput =
      Except.error DBError.uniqueViolation ∧
    codesUnique sampleDB1 := by
  have h := product_code_uniqueness sampleDB1 2 1 sampleProductInput
    sampleDB1_reachable
  exact ⟨h.1 ⟨ProductRow.create 1 0 sampleProductInput,
    by simp [sampleDB1], rfl⟩, h.2⟩

/-- Claim C2 counterexample: the reachable state `dbInvNone` holds exactly
one inventory row with the triple (warehouse 1, product 1, NULL batch);
creating a second row with the identical triple succeeds instead of
failing with a uniqueness violation, because SQL unique constraints treat
NULL as distinct. -/
theorem inventory_triple_counterexample :
    dbInvNone.inventories = [InventoryRow.create 10 0 invInputN] ∧
    (InventoryRow.create 10 0 invInputN).warehouse = invInputN.warehouse ∧
    (InventoryRow.create 10 0 invInputN).product = invInputN.product ∧
    (InventoryRow.create 10 0 invInputN).batch = invInputN.batch ∧
    createInventory dbInvNone 11 1 invInputN =
      Except.ok { dbInvNone with
        inventories :=
          dbInvNone.inventories ++ [InventoryRow.create 11 1 invInputN] } :=
  ⟨rfl, rfl, rfl, rfl, by decide⟩

/-- Claim C2 (amended): creating a second `Inventory` row with an
identical (warehouse, product, batch) triple whose batch is non-null
fails with a uniqueness violation, and in every reachable state the
triple is unique over the rows with a non-null batch. -/
theorem inventory_triple_uniqueness (db : DB) (id now : Nat)
    (inp : InventoryInput) (hdb : Reachable db) :
    ((∃ r ∈ db.inventories, r.warehouse = inp.warehouse ∧
        r.product = inp.product ∧ r.batch = inp.batch ∧
        r.batch.isSome = true) →
      createInventory db id now inp = .error .uniqueViolation) ∧
    tripleUnique db := by
  refine ⟨?_, reachable_tripleUnique hdb⟩
  rintro ⟨r, hr, h1, h2, h3, h4⟩
  have hc : db.inventories.any
      (fun q => inventoryConflict q inp.warehouse inp.product inp.batch) =
        true := by
    refine List.any_eq_true.mpr ⟨r, hr, ?_⟩
    unfold inventoryConflict
    rw [h3] at h4
    simp [h1, h2, h3, h4]
  simp [createInventory, hc]

/-- Witness for the amended C2: in the reachable state `dbInvSome`, which
holds the triple (warehouse 1, product 1, batch 1), creating an identical
row fails with a uniqueness violation. -/
theorem inventory_triple_uniqueness_witness :
    createInventory dbInvSome 11 1 invInputB =
      Except.error DBError.uniqueViolation ∧
    tripleUnique dbInvSome := by
  have h := inventory_triple_uniqueness dbInvSome 11 1 invInputB
    dbInvSome_reachable
  exact ⟨h.1 ⟨InventoryRow.create 10 0 invInputB,
    by simp [dbInvSome], rfl, rfl, rfl, rfl⟩, h.2⟩

/-- Claim C9: when the batch reference is NULL, the `unique_together`
triple does not prevent duplicates: an insert with a NULL batch succeeds
whenever its foreign keys resolve and its quantity is non-negative,
regardless of existing rows with the same (warehouse, product, NULL). -/
theorem null_batch_duplicates_allowed (db : DB) (id now : Nat)
    (inp : InventoryInput) (hb : inp.batch = none)
    (hw : db.warehouseExists inp.warehouse = true)
    (hp : db.productExists inp.product = true)
    (hq : 0 ≤ inp.quantity) :
    createInventory db id now inp =
      .ok { db with
            inventories := db.inventories ++ [InventoryRow.create id now inp] } := by
  have hconf : db.inventories.any
      (fun q => inventoryConflict q inp.warehouse inp.product inp.batch) =
        false := by
    rw [hb]
    refine List.any_eq_false.mpr ?_
    intro r hr
    unfold inventoryConflict
    cases hrb : r.batch <;> simp [hrb]
  have h1 : ¬(db.inventories.any
      (fun q => inventoryConflict q inp.warehouse inp.product inp.batch) =
        true) := by
    rw [hconf]
    simp
  have h2 : ¬((!db.warehouseExists inp.warehouse) = true) := by
    rw [hw]
    simp
  have h3 : ¬((!db.productExists inp.product) = true) := by
    rw [hp]
    simp
  have h4 : ¬((!optRefOk db.batchExists inp.batch) = true) := by
    rw [hb]
    simp [optRefOk]
  have h5 : ¬(inp.quantity < 0) := by omega
  unfold createInventory
  rw [if_neg h1, if_neg h2, if_neg h3, if_neg h4, if_neg h5]

/-- Witness for C9: `dbInvNone` already holds a (warehouse 1, product 1,
NULL batch) row, and inserting a second row with the very same triple
succeeds. -/
theorem null_batch_duplicates_allowed_witness :
    createInventory dbInvNone 11 1 invInputN =
      Except.ok { dbInvNone with
        inventories :=
          dbInvNone.inventories ++ [InventoryRow.create 11 1 invInputN] } :=
  null_batch_duplicates_allowed dbInvNone 11 1 invInputN rfl (by decide)
    (by decide) (by decide)

/-- Claim C3: deleting a `Product` deletes every `Batch` of that product
and every `Inventory` row of that product (cascade), keeps the batches
and inventory rows of other products, and leaves no reference to the
deleted product — or to one of its cascaded batches — anywhere in the
database. -/
theorem delete_product_cascade (db : DB) (p : Nat) :
    (∀ b ∈ (deleteProduct db p).batches, b.product ≠ p) ∧
    (∀ b ∈ db.batches, b.product ≠ p → b ∈ (deleteProduct db p).batches) ∧
    (∀ r ∈ (deleteProduct db p).inventories, r.product ≠ p) ∧
    (∀ r ∈ db.inventories, r.product ≠ p →
      ∃ r' ∈ (deleteProduct db p).inventories, r'.id = r.id) ∧
    (∀ r ∈ (deleteProduct db p).products, r.id ≠ p) ∧
    (∀ r ∈ (deleteProduct db p).purchaseOrderDetails, r.product ≠ p) ∧
    (∀ r ∈ (deleteProduct db p).goodsReceiptDetails, r.product ≠ p) ∧
    (∀ r ∈ (deleteProduct db p).saleDetails, r.product ≠ p) ∧
    (∀ r ∈ (deleteProduct db p).writeOffs, r.product ≠ p) ∧
    (∀ r ∈ (deleteProduct db p).inventories, ∀ bid : Nat,
      r.batch = some bid →
      ∀ bt ∈ db.batches, bt.id = bid → bt.product ≠ p) := by
  refine ⟨?_, ?_, ?_, ?_, ?_, ?_, ?_, ?_, ?_, ?_⟩
  · intro b hb
    simpa using (List.mem_filter.mp hb).2
  · intro b hb hbp
    exact List.mem_filter.mpr ⟨hb, by simpa using hbp⟩
  · intro r hr
    obtain ⟨s, hs, rfl⟩ := List.mem_map.mp hr
    rw [(invClearBatches_fields _ s).2.2.1]
    simpa using (List.mem_filter.mp hs).2
  · intro r hr hrp
    refine ⟨InventoryRow.clearBatches
        ((db.batches.filter (fun b => b.product = p)).map (fun b => b.id)) r,
      List.mem_map_of_mem _ (List.mem_filter.mpr ⟨hr, by simpa using hrp⟩),
      (invClearBatches_fields _ r).1⟩
  · intro r hr
    simpa using (List.mem_filter.mp hr).2
  · intro r hr
    simpa using (List.mem_filter.mp hr).2
  · intro r hr
    obtain ⟨s, hs, rfl⟩ := List.mem_map.mp hr
    rw [grdClearBatches_product]
    simpa using (List.mem_filter.mp hs).2
  · intro r hr
    obtain ⟨s, hs, rfl⟩ := List.mem_map.mp hr
    rw [sdClearBatches_product]
    simpa using (List.mem_filter.mp hs).2
  · intro r hr
    obtain ⟨s, hs, rfl⟩ := List.mem_map.mp hr
    rw [woClearBatches_product]
    simpa using (List.mem_filter.mp hs).2
  · intro r hr bid hbid bt hbt hbtid hbtp
    obtain ⟨s, hs, rfl⟩ := List.mem_map.mp hr
    obtain ⟨hsb, hdead⟩ := invClearBatches_batch_some _ s bid hbid
    have hmem : bid ∈
        (db.batches.filter (fun b => b.product = p)).map (fun b => b.id) := by
      refine List.mem_map.mpr ⟨bt, List.mem_filter.mpr ⟨hbt, by simpa using hbtp⟩,
        hbtid⟩
    have hcon : ((db.batches.filter (fun b => b.product = p)).map
        (fun b => b.id)).contains bid = true :=
      List.elem_eq_true_of_mem hmem
    rw [hdead] at hcon
    exact Bool.noConfusion hcon

/-- Witness for C3, at the reachable state `dbInvSome` (one product with
one batch and one inventory row) deleting product 1. -/
theorem delete_product_cascade_witness :
    (∀ b ∈ (deleteProduct dbInvSome 1).batches, b.product ≠ 1) ∧
    (∀ r ∈ (deleteProduct dbInvSome 1).inventories, r.product ≠ 1) ∧
    (∀ r ∈ (deleteProduct dbInvSome 1).products, r.id ≠ 1) := by
  have h := delete_product_cascade dbInvSome 1
  exact ⟨h.1, h.2.2.1, h.2.2.2.2.1⟩

/-- Claim C4: deleting a `Batch` deletes no `Inventory` row; each row
keeps its id, warehouse, product, quantity, cost price, retail price and
timestamps, and its batch reference becomes NULL exactly when it pointed
at the deleted batch. -/
theorem delete_batch_nulls_reference (db : DB) (b : Nat) :
    (deleteBatch db b).inventories.length = db.inventories.length ∧
    ∀ r ∈ db.inventories,
      ∃ r' ∈ (deleteBatch db b).inventories,
        r'.id = r.id ∧ r'.warehouse = r.warehouse ∧
        r'.product = r.product ∧ r'.quantity = r.quantity ∧
        r'.cost_price = r.cost_price ∧ r'.retail_price = r.retail_price ∧
        r'.ts = r.ts ∧
        r'.batch = (if r.batch = some b then none else r.batch) := by
  constructor
  · exact List.length_map _ _
  · intro r hr
    refine ⟨InventoryRow.clearBatches [b] r, List.mem_map_of_mem _ hr, ?_⟩
    obtain ⟨f1, f2, f3, f4, f5, f6, f7⟩ := invClearBatches_fields [b] r
    exact ⟨f1, f2, f3, f4, f5, f6, f7,
      invClearBatches_single_batch b r⟩

/-- Witness for C4: deleting batch 1 in `dbInvSome` keeps its single
inventory row (same id, warehouse, product, quantity and prices) and
nulls its batch reference. -/
theorem delete_batch_nulls_reference_witness :
    (deleteBatch dbInvSome 1).inventories.length =
      dbInvSome.inventories.length ∧
    ∃ r' ∈ (deleteBatch dbInvSome 1).inventories,
      r'.id = (InventoryRow.create 10 0 invInputB).id ∧
      r'.warehouse = (InventoryRow.create 10 0 invInputB).warehouse ∧
      r'.product = (InventoryRow.create 10 0 invInputB).product ∧
      r'.quantity = (InventoryRow.create 10 0 invInputB).quantity ∧
      r'.cost_price = (InventoryRow.create 10 0 invInputB).cost_price ∧
      r'.retail_price = (InventoryRow.create 10 0 invInputB).retail_price ∧
      r'.ts = (InventoryRow.create 10 0 invInputB).ts ∧
      r'.batch = (if (InventoryRow.create 10 0 invInputB).batch = some 1
        then none else (InventoryRow.create 10 0 invInputB).batch) := by
  have h := delete_batch_nulls_reference dbInvSome 1
  exact ⟨h.1, h.2 (InventoryRow.create 10 0 invInputB) (by simp [dbInvSome])⟩

/-- Claim C5: each status field accepts exactly its enumerated values —
{draft, sent, received, cancelled} for `PurchaseOrder`, {pending, partial,
completed, rejected} for `GoodsReceipt`, {open, completed, returned} for
`Sale` — and assigning any unlisted value fails validation. -/
theorem status_choices_validation (s : String) :
    (OrderStatus.isValid s = true ↔
      (s = "draft" ∨ s = "sent" ∨ s = "received" ∨ s = "cancelled")) ∧
    (ReceiptStatus.isValid s = true ↔
      (s = "pending" ∨ s = "partial" ∨ s = "completed" ∨ s = "rejected")) ∧
    (SaleStatus.isValid s = true ↔
      (s = "open" ∨ s = "completed" ∨ s = "returned")) ∧
    (OrderStatus.isValid s = false → ∀ (db : DB) (po now : Nat),
      updatePurchaseOrderStatus db po now s =
        Except.error DBError.invalidChoice) ∧
    (ReceiptStatus.isValid s = false → ∀ (db : DB) (gr now : Nat),
      updateGoodsReceiptStatus db gr now s =
        Except.error DBError.invalidChoice) ∧
    (SaleStatus.isValid s = false → ∀ (db : DB) (sl now : Nat),
      updateSaleStatus db sl now s = Except.error DBError.invalidChoice) := by
  refine ⟨?_, ?_, ?_, ?_, ?_, ?_⟩
  · simp [OrderStatus.isValid, OrderStatus.values, OrderStatus.choices]
  · simp [ReceiptStatus.isValid, ReceiptStatus.values, ReceiptStatus.choices]
  · simp [SaleStatus.isValid, SaleStatus.values, SaleStatus.choices]
  · intro h db po now
    simp [updatePurchaseOrderStatus, h]
  · intro h db gr now
    simp [updateGoodsReceiptStatus, h]
  · intro h db sl now
    simp [updateSaleStatus, h]

/-- Witness for C5: the unlisted value `bogus` is rejected by all three
status fields. -/
theorem status_choices_validation_witness :
    updatePurchaseOrderStatus DB.empty 1 0 "bogus" =
      Except.error DBError.invalidChoice ∧
    updateGoodsReceiptStatus DB.empty 1 0 "bogus" =
      Except.error DBError.invalidChoice ∧
    updateSaleStatus DB.empty 1 0 "bogus" =
      Except.error DBError.invalidChoice := by
  have h := status_choices_validation "bogus"
  exact ⟨h.2.2.2.1 (by decide) DB.empty 1 0,
    h.2.2.2.2.1 (by decide) DB.empty 1 0,
    h.2.2.2.2.2 (by decide) DB.empty 1 0⟩

/-- Claim C6: in every reachable state all quantity fields and the two
stock thresholds are non-negative, and storing a negative value is
rejected by the corresponding non-negativity check. -/
theorem quantities_nonneg (db : DB) (hdb : Reachable db) (id now : Nat)
    (inv : InventoryInput) (pod : PurchaseOrderDetailInput)
    (grd : GoodsReceiptDetailInput) (sd : SaleDetailInput)
    (wo : WriteOffInput) (pr : ProductInput) :
    nonNegAll db ∧
    (inv.quantity < 0 → ∀ db2 : DB,
      createInventory db id now inv ≠ .ok db2) ∧
    (pod.quantity < 0 → ∀ db2 : DB,
      createPurchaseOrderDetail db id now pod ≠ .ok db2) ∧
    (grd.quantity < 0 → ∀ db2 : DB,
      createGoodsReceiptDetail db id now grd ≠ .ok db2) ∧
    (sd.quantity < 0 → ∀ db2 : DB,
      createSaleDetail db id now sd ≠ .ok db2) ∧
    (wo.quantity < 0 → ∀ db2 : DB,
      createWriteOff db id now wo ≠ .ok db2) ∧
    ((pr.min_stock_level < 0 ∨ pr.max_stock_level < 0) → ∀ db2 : DB,
      createProduct db id now pr ≠ .ok db2) ∧
    (∀ q : Int, q < 0 →
      updateInventoryQuantity db id now q =
        Except.error DBError.checkViolation) := by
  refine ⟨reachable_nonNegAll hdb, ?_, ?_, ?_, ?_, ?_, ?_, ?_⟩
  · intro hneg db2 hres
    have := (createInventory_ok_inv hres).2.2
    omega
  · intro hneg db2 hres
    have := (createPurchaseOrderDetail_ok_inv hres).2
    omega
  · intro hneg db2 hres
    have := (createGoodsReceiptDetail_ok_inv hres).2
    omega
  · intro hneg db2 hres
    have := (createSaleDetail_ok_inv hres).2
    omega
  · intro hneg db2 hres
    have := (createWriteOff_ok_inv hres).2
    omega
  · intro hneg db2 hres
    obtain ⟨-, -, hmin, hmax⟩ := createProduct_ok_inv hres
    rcases hneg with h | h <;> omega
  · intro q hneg
    unfold updateInventoryQuantity
    rw [if_pos hneg]

/-- Witness for C6: the empty database satisfies the invariant and a
negative-quantity insert is rejected there. -/
theorem quantities_nonneg_witness :
    nonNegAll DB.empty ∧
    createInventory DB.empty 1 0 ⟨1, 1, none, -1, 0, 0⟩ ≠
      Except.ok DB.empty ∧
    updateInventoryQuantity DB.empty 1 0 (-1) =
      Except.error DBError.checkViolation := by
  have h := quantities_nonneg DB.empty Reachable.empty 1 0
    ⟨1, 1, none, -1, 0, 0⟩ ⟨1, 1, -1, 0, 0⟩ ⟨1, 1, none, -1, 0, none⟩
    ⟨1, 1, none, -1, 0, 0⟩ ⟨1, 1, none, -1, ""⟩
    ⟨"X", "X-1", "", "", "", false, -1, 0⟩
  exact ⟨h.1, h.2.1 (by decide) DB.empty, h.2.2.2.2.2.2.2 (-1) (by decide)⟩

/-- Claim C7: every foreign key of the schema follows the stated deletion
policy: the compositional-parent references cascade, the optional
cross-references (`batch`, `Sale.cashier`, `Sale.customer`,
`GoodsReceipt.purchase_order`) — and only those — are SET_NULL, they are
exactly the nullable keys, and every other key cascades. -/
theorem foreignKey_deletion_policy (fk : ForeignKey)
    (h : fk ∈ schemaForeignKeys) :
    (isCompositionalChildRef fk = true → fk.onDelete = OnDelete.cascade) ∧
    (isOptionalCrossRef fk = true → fk.onDelete = OnDelete.setNull) ∧
    (fk.onDelete = OnDelete.setNull ↔ isOptionalCrossRef fk = true) ∧
    (fk.onDelete = OnDelete.setNull ↔ fk.nullable = true) ∧
    (isOptionalCrossRef fk = false → fk.onDelete = OnDelete.cascade) := by
  have hall : ∀ x ∈ schemaForeignKeys,
      (isCompositionalChildRef x = true → x.onDelete = OnDelete.cascade) ∧
      (isOptionalCrossRef x = true → x.onDelete = OnDelete.setNull) ∧
      (x.onDelete = OnDelete.setNull ↔ isOptionalCrossRef x = true) ∧
      (x.onDelete = OnDelete.setNull ↔ x.nullable = true) ∧
      (isOptionalCrossRef x = false → x.onDelete = OnDelete.cascade) := by
    decide
  exact hall fk h

/-- Witness for C7 at the `Inventory.batch` key: it is an optional
cross-reference, SET_NULL and nullable. -/
theorem foreignKey_deletion_policy_witness :
    isOptionalCrossRef ⟨"Inventory", "batch", "Batch", OnDelete.setNull,
      true⟩ = true ∧
    (ForeignKey.mk "Inventory" "batch" "Batch" OnDelete.setNull
      true).onDelete = OnDelete.setNull := by
  have h := foreignKey_deletion_policy
    ⟨"Inventory", "batch", "Batch", OnDelete.setNull, true⟩ (by decide)
  exact ⟨by decide, h.2.1 (by decide)⟩

/-- Claim C8: every entity row of the schema carries the
`TimeStampedModel` pair: at creation both `created_at` and `updated_at`
equal the creation instant, and an update keeps `created_at` while
refreshing `updated_at` to the update instant. -/
theorem timestamps_contract (id now : Nat) (pi : ProductInput)
    (bi : BatchInput) (wi : WarehouseInput) (ii : InventoryInput)
    (si : SupplierInput) (poi : PurchaseOrderInput)
    (podi : PurchaseOrderDetailInput) (gri : GoodsReceiptInput)
    (grdi : GoodsReceiptDetailInput) (ci : CustomerInput) (sli : SaleInput)
    (sdi : SaleDetailInput) (woi : WriteOffInput) :
    (ProductRow.create id now pi).ts = ⟨now, now⟩ ∧
    (BatchRow.create id now bi).ts = ⟨now, now⟩ ∧
    (WarehouseRow.create id now wi).ts = ⟨now, now⟩ ∧
    (InventoryRow.create id now ii).ts = ⟨now, now⟩ ∧
    (SupplierRow.create id now si).ts = ⟨now, now⟩ ∧
    (PurchaseOrderRow.create id now poi).ts = ⟨now, now⟩ ∧
    (PurchaseOrderDetailRow.create id now podi).ts = ⟨now, now⟩ ∧
    (GoodsReceiptRow.create id now gri).ts = ⟨now, now⟩ ∧
    (GoodsReceiptDetailRow.create id now grdi).ts = ⟨now, now⟩ ∧
    (CustomerRow.create id now ci).ts = ⟨now, now⟩ ∧
    (SaleRow.create id now sli).ts = ⟨now, now⟩ ∧
    (SaleDetailRow.create id now sdi).ts = ⟨now, now⟩ ∧
    (WriteOffRow.create id now woi).ts = ⟨now, now⟩ ∧
    (∀ ts : Timestamps, (ts.touch now).created_at = ts.created_at ∧
      (ts.touch now).updated_at = now) ∧
    (∀ (db : DB) (p : Nat) (nm : String), ∀ r ∈ db.products,
      ∃ r' ∈ (updateProductName db p now nm).products,
        r'.id = r.id ∧ r'.ts.created_at = r.ts.created_at ∧
        (r.id = p → r'.ts.updated_at = now) ∧ (¬r.id = p → r' = r)) := by
  refine ⟨rfl, rfl, rfl, rfl, rfl, rfl, rfl, rfl, rfl, rfl, rfl, rfl, rfl,
    fun ts => ⟨rfl, rfl⟩, ?_⟩
  intro db p nm r hr
  by_cases hid : r.id = p
  · refine ⟨{ r with name := nm, ts := r.ts.touch now }, ?_, rfl, rfl,
      fun _ => rfl, fun hne => absurd hid hne⟩
    have he : (fun x =>
        if x.id = p then { x with name := nm, ts := x.ts.touch now }
        else x) r = { r with name := nm, ts := r.ts.touch now } := by
      simp [hid]
    rw [← he]
    exact List.mem_map_of_mem _ hr
  · refine ⟨r, ?_, rfl, rfl, fun hp => absurd hp hid, fun _ => rfl⟩
    have he : (fun x =>
        if x.id = p then { x with name := nm, ts := x.ts.touch now }
        else x) r = r := by
      simp [hid]
    rw [← he]
    exact List.mem_map_of_mem _ hr

/-- Witness for C8: creation at tick 1 stamps both fields with 1, and
touching a row created at tick 0 keeps `created_at = 0` while setting
`updated_at = 1`. -/
theorem timestamps_contract_witness :
    (ProductRow.create 1 1 sampleProductInput).ts = ⟨1, 1⟩ ∧
    (Timestamps.touch ⟨0, 0⟩ 1).created_at = 0 ∧
    (Timestamps.touch ⟨0, 0⟩ 1).updated_at = 1 := by
  have h := timestamps_contract 1 1 sampleProductInput sampleBatchInput
    sampleWarehouseInput invInputB ⟨"S", "", "", "", ""⟩ ⟨1, 1, none, 0⟩
    ⟨1, 1, 1, 0, 0⟩ ⟨none, 1, none⟩ ⟨1, 1, none, 1, 0, none⟩
    ⟨"", "", "", "", ""⟩ ⟨1, none, none, none, 0, none⟩
    ⟨1, 1, none, 1, 0, 0⟩ ⟨1, 1, none, 1, ""⟩
  refine ⟨h.1, ?_, ?_⟩
  · exact (h.2.2.2.2.2.2.2.2.2.2.2.2.2.1 ⟨0, 0⟩).1
  · exact (h.2.2.2.2.2.2.2.2.2.2.2.2.2.1 ⟨0, 0⟩).2

/-- Claim C10: a `PurchaseOrder` created without an explicit status gets
`draft`, a `GoodsReceipt` gets `pending`, and a `Sale` gets status `open`
and payment type `cash`; on success the created row is exactly the one
appended. -/
theorem default_statuses (db : DB) (id now : Nat)
    (poi : PurchaseOrderInput) (gri : GoodsReceiptInput) (sli : SaleInput)
    (h1 : poi.status = none) (h2 : gri.status = none)
    (h3 : sli.status = none) (h4 : sli.payment_type = none) :
    (PurchaseOrderRow.create id now poi).status = "draft" ∧
    (GoodsReceiptRow.create id now gri).status = "pending" ∧
    (SaleRow.create id now sli).status = "open" ∧
    (SaleRow.create id now sli).payment_type = "cash" ∧
    (∀ db' : DB, createPurchaseOrder db id now poi = .ok db' →
      db'.purchaseOrders =
        db.purchaseOrders ++ [PurchaseOrderRow.create id now poi]) ∧
    (∀ db' : DB, createGoodsReceipt db id now gri = .ok db' →
      db'.goodsReceipts =
        db.goodsReceipts ++ [GoodsReceiptRow.create id now gri]) ∧
    (∀ db' : DB, createSale db id now sli = .ok db' →
      db'.sales = db.sales ++ [SaleRow.create id now sli]) := by
  refine ⟨?_, ?_, ?_, ?_, ?_, ?_, ?_⟩
  · simp [PurchaseOrderRow.create, h1, OrderStatus.DRAFT]
  · simp [GoodsReceiptRow.create, h2, ReceiptStatus.PENDING]
  · simp [SaleRow.create, h3, SaleStatus.OPEN]
  · simp [SaleRow.create, h4]
  · intro db' hok
    obtain ⟨rfl, -⟩ := createPurchaseOrder_ok_inv hok
    rfl
  · intro db' hok
    obtain ⟨rfl, -⟩ := createGoodsReceipt_ok_inv hok
    rfl
  · intro db' hok
    obtain ⟨rfl, -⟩ := createSale_ok_inv hok
    rfl

/-- Witness for C10 at concrete inputs with no status or payment type
supplied. -/
theorem default_statuses_witness :
    (PurchaseOrderRow.create 1 0 ⟨1, 1, none, 0⟩).status = "draft" ∧
    (GoodsReceiptRow.create 1 0 ⟨none, 1, none⟩).status = "pending" ∧
    (SaleRow.create 1 0 ⟨1, none, none, none, 0, none⟩).status = "open" ∧
    (SaleRow.create 1 0 ⟨1, none, none, none, 0, none⟩).payment_type =
      "cash" := by
  have h := default_statuses DB.empty 1 0 ⟨1, 1, none, 0⟩ ⟨none, 1, none⟩
    ⟨1, none, none, none, 0, none⟩ rfl rfl rfl rfl
  exact ⟨h.1, h.2.1, h.2.2.1, h.2.2.2.1⟩
